import Mathlib

/-!
Verification of the `yatl` timer library (`src/lib.rs`).

Shallow embedding conventions:
* `Duration` is a `Nat` counting nanoseconds (Rust `Duration` is non-negative;
  `as_nanos` is the value itself, `as_micros`, `as_millis`, `as_secs` are the
  truncating divisions by 1000, 1000000, 1000000000).
* `SystemTime` is a `Nat` of nanoseconds since the epoch; `SystemTime::elapsed`
  succeeds with `now - s` when `s ≤ now` and otherwise fails with a
  `SystemTimeError` carrying the deficit `s - now`.
* The distinct error strings of the source are modelled by the constructors of
  `TimerError`: `"Timer already started!"` ↦ `alreadyStarted`,
  `"Timer not started!"` ↦ `notStarted`, and the formatted
  `"Internal Error: ..."` string produced from a `SystemTimeError` ↦
  `internalClockError` carrying the error's deficit duration.
* A Rust method on `&mut self` becomes a function `Timer → ... → result × Timer`
  returning the result together with the updated state; a `&self` method
  becomes a plain function of the `Timer` value (it cannot mutate).
-/

/-- The `Timer` struct of the source: an optional start instant and the
recorded lap durations. -/
structure Timer where
  started : Option Nat
  laps : List Nat
deriving Repr, DecidableEq

/-- The error outcomes of the source's fallible methods (the source uses
distinct strings; see the conventions above). -/
inductive TimerError where
  | alreadyStarted
  | notStarted
  | internalClockError (deficit : Nat)
deriving Repr, DecidableEq

/-- Model of `SystemTime::elapsed` called on start instant `s` at current time
`now`: `Ok(now - s)` when the clock did not go backwards, otherwise the
`SystemTimeError` holding how far behind `now` is. -/
def systemTimeElapsed (s now : Nat) : Except Nat Nat :=
  if s ≤ now then Except.ok (now - s) else Except.error (s - now)

/-- `Timer::new()`: `started` absent, `laps` empty. -/
def Timer.new : Timer :=
  { started := none, laps := [] }

/-- `Timer::start(&mut self)` at current time `now`. -/
def Timer.start (t : Timer) (now : Nat) : Except TimerError Unit × Timer :=
  match t.started with
  | none => (Except.ok (), { t with started := some now })
  | some _ => (Except.error TimerError.alreadyStarted, t)

/-- `Timer::start_time(&self)`. -/
def Timer.start_time (t : Timer) : Except TimerError Nat :=
  match t.started with
  | some s => Except.ok s
  | none => Except.error TimerError.notStarted

/-- `Timer::lap(&mut self)` at current time `now`: on success pushes the
elapsed duration and returns it; on any failure the state is unchanged. -/
def Timer.lap (t : Timer) (now : Nat) : Except TimerError Nat × Timer :=
  match t.started with
  | some s =>
    match systemTimeElapsed s now with
    | Except.ok e => (Except.ok e, { t with laps := t.laps ++ [e] })
    | Except.error d => (Except.error (TimerError.internalClockError d), t)
  | none => (Except.error TimerError.notStarted, t)

/-- `duration_to_human_string` from the source, on a nanosecond count:
nested strict `<` comparisons on the truncated unit counts. -/
def duration_to_human_string (d : Nat) : String :=
  if d < 1000 then toString d ++ "ns"
  else if d / 1000 < 1000 then toString (d / 1000) ++ "us"
  else if d / 1000000 < 1000 then toString (d / 1000000) ++ "ms"
  else if d / 1000000000 < 60 then toString (d / 1000000000) ++ "s"
  else toString (d / 1000000000 / 60) ++ "m"

/-- `Timer::laps(&self)`: returns a clone of the lap list; under value
semantics the clone is the list value itself. -/
def Timer.laps_snapshot (t : Timer) : List Nat :=
  t.laps

/-- `Timer::laps_formatted(&self)`: each lap rendered through
`duration_to_human_string`, in order. -/
def Timer.laps_formatted (t : Timer) : List String :=
  t.laps.map (fun d => duration_to_human_string d)

/-- The specification's formatting table, worded by thresholds on the raw
duration value (< 1000 ns, < 1000 µs, < 1000 ms, < 60 s) with truncating
division for the displayed count. -/
def duration_to_human_string_spec (d : Nat) : String :=
  if d < 1000 then toString d ++ "ns"
  else if d < 1000000 then toString (d / 1000) ++ "us"
  else if d < 1000000000 then toString (d / 1000000) ++ "ms"
  else if d < 60000000000 then toString (d / 1000000000) ++ "s"
  else toString (d / 1000000000 / 60) ++ "m"

/-- C1: `duration_to_human_string` selects the unit by strict `<` thresholds
with truncating integer conversion, agreeing with the specification's table
for every non-negative duration; at the boundaries 1000 ns formats as `1us`
and 60 s as `1m`, and 13674 ns truncates to `13us`. -/
theorem duration_to_human_string_correct :
    (∀ d : Nat, duration_to_human_string d = duration_to_human_string_spec d) ∧
    duration_to_human_string 1000 = "1us" ∧
    duration_to_human_string 60000000000 = "1m" ∧
    duration_to_human_string 13674 = "13us" := by
  refine ⟨fun d => ?_, rfl, rfl, rfl⟩
  have h1 : d / 1000 < 1000 ↔ d < 1000000 := by
    rw [Nat.div_lt_iff_lt_mul (by norm_num)]
  have h2 : d / 1000000 < 1000 ↔ d < 1000000000 := by
    rw [Nat.div_lt_iff_lt_mul (by norm_num)]
  have h3 : d / 1000000000 < 60 ↔ d < 60000000000 := by
    rw [Nat.div_lt_iff_lt_mul (by norm_num)]
  simp only [duration_to_human_string, duration_to_human_string_spec, h1, h2, h3]

/-- C2: `lap()` fails with `NotStarted` when `started` is absent; when present
and the clock has not gone backwards it appends exactly the elapsed duration
and returns it; when the clock went backwards it fails with the distinct
`InternalClockError`; every failure path leaves `laps` (and the whole state)
unchanged. -/
theorem lap_contract (t : Timer) (now : Nat) :
    (t.started = none →
      Timer.lap t now = (Except.error TimerError.notStarted, t)) ∧
    (∀ s, t.started = some s → s ≤ now →
      Timer.lap t now =
        (Except.ok (now - s), { t with laps := t.laps ++ [now - s] })) ∧
    (∀ s, t.started = some s → now < s →
      Timer.lap t now =
        (Except.error (TimerError.internalClockError (s - now)), t) ∧
      TimerError.internalClockError (s - now) ≠ TimerError.notStarted) := by
  refine ⟨fun h => ?_, fun s hs hle => ?_, fun s hs hlt => ⟨?_, by simp⟩⟩
  · simp [Timer.lap, h]
  · simp [Timer.lap, hs, systemTimeElapsed, hle]
  · simp [Timer.lap, hs, systemTimeElapsed, Nat.not_le.mpr hlt]

/-- Witness for C2 at concrete inputs: a timer started at 5 lapped at 8
appends 3; lapped at 3 it fails with the clock error and is unchanged. -/
theorem lap_contract_witness :
    Timer.lap { started := some 5, laps := [7] } 8 =
      (Except.ok 3, { started := some 5, laps := [7, 3] }) ∧
    Timer.lap { started := some 5, laps := [7] } 3 =
      (Except.error (TimerError.internalClockError 2),
        { started := some 5, laps := [7] }) ∧
    Timer.lap { started := none, laps := [] } 3 =
      (Except.error TimerError.notStarted, { started := none, laps := [] }) := by
  refine ⟨?_, ?_, ?_⟩
  · exact (lap_contract { started := some 5, laps := [7] } 8).2.1 5 rfl (by decide)
  · exact ((lap_contract { started := some 5, laps := [7] } 3).2.2 5 rfl (by decide)).1
  · exact (lap_contract { started := none, laps := [] } 3).1 rfl

/-- C3: `start()` succeeds and records `now` exactly when `started` was
absent; otherwise it fails with `AlreadyStarted` leaving the state unchanged,
so of two successive starts the second fails and `start_time()` still returns
the first instant. -/
theorem start_contract (t : Timer) (now : Nat) :
    (t.started = none →
      Timer.start t now = (Except.ok (), { t with started := some now })) ∧
    (∀ s, t.started = some s →
      Timer.start t now = (Except.error TimerError.alreadyStarted, t)) ∧
    (t.started = none → ∀ now2,
      (Timer.start ((Timer.start t now).2) now2).1 =
        Except.error TimerError.alreadyStarted ∧
      (Timer.start ((Timer.start t now).2) now2).2 = (Timer.start t now).2 ∧
      Timer.start_time ((Timer.start ((Timer.start t now).2) now2).2) =
        Except.ok now) := by
  refine ⟨fun h => ?_, fun s hs => ?_, fun h now2 => ?_⟩
  · simp [Timer.start, h]
  · simp [Timer.start, hs]
  · simp [Timer.start, Timer.start_time, h]

/-- Witness for C3 on a fresh timer: start at 4 succeeds, a second start at 9
fails with `AlreadyStarted` and the start time is still 4. -/
theorem start_contract_witness :
    Timer.start Timer.new 4 =
      (Except.ok (), { started := some 4, laps := [] }) ∧
    (Timer.start ((Timer.start Timer.new 4).2) 9).1 =
      Except.error TimerError.alreadyStarted ∧
    Timer.start_time ((Timer.start ((Timer.start Timer.new 4).2) 9).2) =
      Except.ok 4 := by
  refine ⟨?_, ?_, ?_⟩
  · exact (start_contract Timer.new 4).1 rfl
  · exact ((start_contract Timer.new 4).2.2 rfl 9).1
  · exact ((start_contract Timer.new 4).2.2 rfl 9).2.2

/-- C4: `start_time()` fails with `NotStarted` exactly when no start has been
recorded, returns the recorded instant otherwise, and after a successful
`start()` it returns that instant (a pure, hence stable, read). -/
theorem start_time_contract (t : Timer) :
    (t.started = none ↔ Timer.start_time t = Except.error TimerError.notStarted) ∧
    (∀ s, t.started = some s ↔ Timer.start_time t = Except.ok s) ∧
    (∀ now, t.started = none →
      Timer.start_time ((Timer.start t now).2) = Except.ok now) := by
  refine ⟨?_, fun s => ?_, fun now h => ?_⟩
  · cases h : t.started <;> simp [Timer.start_time, h]
  · cases h : t.started <;> simp [Timer.start_time, h]
  · simp [Timer.start, Timer.start_time, h]

/-- Witness for C4: on a fresh timer `start_time()` is `NotStarted`; after
starting at 11 it returns 11. -/
theorem start_time_contract_witness :
    Timer.start_time Timer.new = Except.error TimerError.notStarted ∧
    Timer.start_time ((Timer.start Timer.new 11).2) = Except.ok 11 := by
  refine ⟨?_, ?_⟩
  · exact (start_time_contract Timer.new).1.mp rfl
  · exact (start_time_contract Timer.new).2.2 11 rfl

/-- An operation of the `Timer` API, with the clock reading supplied to the
mutating calls. -/
inductive Op where
  | start (now : Nat)
  | lap (now : Nat)
  | start_time
  | laps
  | laps_formatted
deriving Repr, DecidableEq

/-- The state after one operation: the `&mut self` methods thread their
returned state, the `&self` methods cannot mutate. -/
def Op.apply (t : Timer) : Op → Timer
  | Op.start now => (Timer.start t now).2
  | Op.lap now => (Timer.lap t now).2
  | Op.start_time => t
  | Op.laps => t
  | Op.laps_formatted => t

/-- The state after a sequence of operations. -/
def runOps (t : Timer) : List Op → Timer
  | [] => t
  | op :: ops => runOps (Op.apply t op) ops

theorem apply_laps_extend (t : Timer) (op : Op) :
    ∃ tail, (Op.apply t op).laps = t.laps ++ tail := by
  cases op with
  | start now =>
    refine ⟨[], ?_⟩
    cases h : t.started <;> simp [Op.apply, Timer.start, h]
  | lap now =>
    cases h : t.started with
    | none => exact ⟨[], by simp [Op.apply, Timer.lap, h]⟩
    | some s =>
      by_cases hle : s ≤ now
      · exact ⟨[now - s], by simp [Op.apply, Timer.lap, h, systemTimeElapsed, hle]⟩
      · exact ⟨[], by simp [Op.apply, Timer.lap, h, systemTimeElapsed, hle]⟩
  | start_time => exact ⟨[], by simp [Op.apply]⟩
  | laps => exact ⟨[], by simp [Op.apply]⟩
  | laps_formatted => exact ⟨[], by simp [Op.apply]⟩

theorem runOps_laps_extend (ops : List Op) (t : Timer) :
    ∃ tail, (runOps t ops).laps = t.laps ++ tail := by
  induction ops generalizing t with
  | nil => exact ⟨[], by simp [runOps]⟩
  | cons op ops ih =>
    obtain ⟨tl1, h1⟩ := apply_laps_extend t op
    obtain ⟨tl2, h2⟩ := ih (Op.apply t op)
    exact ⟨tl1 ++ tl2, by rw [runOps, h2, h1, List.append_assoc]⟩

theorem apply_started_mono (t : Timer) (op : Op) (s : Nat)
    (h : t.started = some s) : (Op.apply t op).started = some s := by
  cases op with
  | start now => simp [Op.apply, Timer.start, h]
  | lap now =>
    by_cases hle : s ≤ now <;> simp [Op.apply, Timer.lap, h, systemTimeElapsed, hle]
  | start_time => exact h
  | laps => exact h
  | laps_formatted => exact h

theorem runOps_started_mono (ops : List Op) (t : Timer) (s : Nat)
    (h : t.started = some s) : (runOps t ops).started = some s := by
  induction ops generalizing t with
  | nil => exact h
  | cons op ops ih => exact ih (Op.apply t op) (apply_started_mono t op s h)

/-- The durations that the successful `lap()` calls of an operation sequence
record, in call order: one entry `now - s` for each `Op.lap now` executed in a
state whose start instant `s` is present with `s ≤ now`; failed calls (not
started, or clock behind the start instant) record nothing. -/
def lapDurations (t : Timer) : List Op → List Nat
  | [] => []
  | Op.lap now :: ops =>
    (match t.started with
     | some s =>
       if s ≤ now then
         (now - s) :: lapDurations (Op.apply t (Op.lap now)) ops
       else
         lapDurations (Op.apply t (Op.lap now)) ops
     | none => lapDurations (Op.apply t (Op.lap now)) ops)
  | op :: ops => lapDurations (Op.apply t op) ops

theorem runOps_laps_eq (ops : List Op) (t : Timer) :
    (runOps t ops).laps = t.laps ++ lapDurations t ops := by
  induction ops generalizing t with
  | nil => simp [runOps, lapDurations]
  | cons op ops ih =>
    rw [runOps, ih]
    cases op with
    | start now =>
      cases h : t.started <;>
        simp [lapDurations, Op.apply, Timer.start, h]
    | lap now =>
      cases h : t.started with
      | none => simp [lapDurations, Op.apply, Timer.lap, h]
      | some s0 =>
        by_cases hle : s0 ≤ now <;>
          simp [lapDurations, Op.apply, Timer.lap, h, systemTimeElapsed, hle,
            List.append_assoc, List.singleton_append]
    | start_time => simp [lapDurations, Op.apply]
    | laps => simp [lapDurations, Op.apply]
    | laps_formatted => simp [lapDurations, Op.apply]

/-- C8: along any operation sequence, a recorded start instant is never
cleared or replaced, and the final lap list is exactly the initial one with,
appended in call order, the span `now - s` for each successful `Op.lap now`
(its clock reading minus the start instant in force at that call) — so `laps`
is append-only and every entry is the elapsed time from the start instant to
the moment of the `lap()` call that produced it. -/
theorem timer_invariants (ops : List Op) (t : Timer) (s : Nat) :
    (t.started = some s → (runOps t ops).started = some s) ∧
    (runOps t ops).laps = t.laps ++ lapDurations t ops :=
  ⟨fun h => runOps_started_mono ops t s h, runOps_laps_eq ops t⟩

/-- Witness for C8: a timer started at 2, run through a lap at 5 and a failing
restart, still has start instant 2; a fresh timer started at 3 and lapped at
10, 1 and 15 records exactly [7, 12] (the lap at 1 fails, the clock being
behind the start instant, and records nothing). -/
theorem timer_invariants_witness :
    (runOps { started := some 2, laps := [] } [Op.lap 5, Op.start 9]).started =
      some 2 ∧
    (runOps Timer.new [Op.start 3, Op.lap 10, Op.lap 1, Op.lap 15]).laps =
      [7, 12] := by
  refine ⟨(timer_invariants [Op.lap 5, Op.start 9]
    { started := some 2, laps := [] } 2).1 rfl, ?_⟩
  exact ((timer_invariants [Op.start 3, Op.lap 10, Op.lap 1, Op.lap 15]
    Timer.new 0).2).trans rfl

/-- C5: `laps()` returns the current value of the lap sequence; a snapshot
taken before any further operations is a prefix of every later state's lap
sequence, so later `lap()` calls never alter or shorten what was returned. -/
theorem laps_snapshot_stable (t : Timer) (ops : List Op) :
    Timer.laps_snapshot t = t.laps ∧
    ∃ tail, Timer.laps_snapshot (runOps t ops) = Timer.laps_snapshot t ++ tail := by
  refine ⟨rfl, ?_⟩
  simpa [Timer.laps_snapshot] using runOps_laps_extend ops t

/-- C6: `laps_formatted()` is exactly `laps()` mapped through
`duration_to_human_string`: same length, same order, pointwise equal. -/
theorem laps_formatted_matches (t : Timer) :
    Timer.laps_formatted t = (Timer.laps_snapshot t).map duration_to_human_string ∧
    (Timer.laps_formatted t).length = (Timer.laps_snapshot t).length ∧
    ∀ i : Nat, (Timer.laps_formatted t)[i]? =
      ((Timer.laps_snapshot t)[i]?).map duration_to_human_string := by
  refine ⟨rfl, by simp [Timer.laps_formatted, Timer.laps_snapshot], fun i => ?_⟩
  simp [Timer.laps_formatted, Timer.laps_snapshot]

/-- C7: after a successful start at `n0` and laps at `n1 ≤ n2` (both at or
after `n0`), both laps succeed, the second duration dominates the first, and
both are recorded in call order. -/
theorem two_laps_monotone (t : Timer) (n0 n1 n2 : Nat)
    (h : t.started = none) (h01 : n0 ≤ n1) (h12 : n1 ≤ n2) :
    (Timer.lap ((Timer.start t n0).2) n1).1 = Except.ok (n1 - n0) ∧
    (Timer.lap ((Timer.lap ((Timer.start t n0).2) n1).2) n2).1 =
      Except.ok (n2 - n0) ∧
    n1 - n0 ≤ n2 - n0 ∧
    ((Timer.lap ((Timer.lap ((Timer.start t n0).2) n1).2) n2).2).laps =
      t.laps ++ [n1 - n0, n2 - n0] := by
  have hle2 : n0 ≤ n2 := Nat.le_trans h01 h12
  refine ⟨?_, ?_, Nat.sub_le_sub_right h12 n0, ?_⟩ <;>
    simp [Timer.start, Timer.lap, systemTimeElapsed, h, h01, hle2]

/-- Witness for C7: fresh timer started at 1, lapped at 2 and 4: durations 1
and 3, recorded in order. -/
theorem two_laps_monotone_witness :
    (Timer.lap ((Timer.start Timer.new 1).2) 2).1 = Except.ok 1 ∧
    (Timer.lap ((Timer.lap ((Timer.start Timer.new 1).2) 2).2) 4).1 =
      Except.ok 3 ∧
    (1 : Nat) ≤ 3 ∧
    ((Timer.lap ((Timer.lap ((Timer.start Timer.new 1).2) 2).2) 4).2).laps =
      [1, 3] :=
  two_laps_monotone Timer.new 1 2 4 rfl (by decide) (by decide)

/-- C9: frame conditions — `start()` never touches `laps` (success or
failure), `lap()` never touches `started` (success or failure), and the
read-only accessors leave the whole state unchanged. -/
theorem frame_conditions (t : Timer) (now : Nat) :
    ((Timer.start t now).2).laps = t.laps ∧
    ((Timer.lap t now).2).started = t.started ∧
    Op.apply t Op.start_time = t ∧
    Op.apply t Op.laps = t ∧
    Op.apply t Op.laps_formatted = t := by
  refine ⟨?_, ?_, rfl, rfl, rfl⟩
  · cases h : t.started <;> simp [Timer.start, h]
  · cases h : t.started with
    | none => simp [Timer.lap, h]
    | some s =>
      by_cases hle : s ≤ now <;> simp [Timer.lap, h, systemTimeElapsed, hle]

/-- C10: `laps()` and `laps_formatted()` are total functions of the state
with no error path — on a never-started fresh timer they return the empty
sequence, while `start_time()` and `lap()` fail with `NotStarted` there. -/
theorem laps_total_on_new :
    Timer.new.started = none ∧
    Timer.laps_snapshot Timer.new = [] ∧
    Timer.laps_formatted Timer.new = [] ∧
    Timer.start_time Timer.new = Except.error TimerError.notStarted ∧
    (∀ now, (Timer.lap Timer.new now).1 = Except.error TimerError.notStarted) ∧
    (∀ t : Timer,
      Timer.laps_formatted t = (Timer.laps_snapshot t).map duration_to_human_string) :=
  ⟨rfl, rfl, rfl, rfl, fun _ => rfl, fun _ => rfl⟩
